import Mathlib

/-!
# gonuggets: telemetry bootstrap (`main.go`)

A shallow embedding of `buildTelemetryInfo`, `program.telemetry`, the halt
closure it returns, and `main`.  Everything the Go code obtains from outside
(environment lookup, flags, constructor outcomes of the OpenTelemetry
libraries, shutdown outcomes, the goroutine schedule) is a field of `World`;
every externally visible action is an `Event` in an effect trace.
-/

namespace Gonuggets

/-! ## Data model -/

/-- Go `error` values: a leaf error, or `fmt.Errorf(pre + "%w", inner)`. -/
inductive GoError where
  | New (msg : String)
  | Errorf (pre : String) (inner : GoError)
  deriving DecidableEq, Repr

/-- The `Error()` method: a wrapping error prints its format text followed by
the wrapped error's message. -/
def GoError.Error : GoError → String
  | .New msg => msg
  | .Errorf pre inner => pre ++ inner.Error

/-- The `errors.Unwrap` view of an error built with the `%w` verb. -/
def GoError.Unwrap : GoError → Option GoError
  | .New _ => none
  | .Errorf _ inner => some inner

/-- The two value types of `attribute.Value` that this program builds. -/
inductive Value where
  | BOOL (b : Bool)
  | STRING (s : String)
  deriving DecidableEq, Repr

/-- Method `Value.AsString`: the string payload, empty for a non-string value. -/
def Value.AsString : Value → String
  | .STRING s => s
  | .BOOL _ => ""

/-- Method `Value.AsBool`: the boolean payload, false for a non-boolean value. -/
def Value.AsBool : Value → Bool
  | .BOOL b => b
  | .STRING _ => false

/-- An `attribute.KeyValue`. -/
structure KeyValue where
  Key : String
  Value : Value
  deriving DecidableEq, Repr

/-- The call `attribute.Key(k).String(v)`. -/
def KeyString (k v : String) : KeyValue := ⟨k, .STRING v⟩

/-- The call `attribute.Key(k).Bool(v)`. -/
def KeyBool (k : String) (v : Bool) : KeyValue := ⟨k, .BOOL v⟩

/-- The helper `semconv.ServiceName`. -/
def semconv.ServiceName (v : String) : KeyValue := KeyString "service.name" v

/-- The helper `semconv.ServiceVersion`. -/
def semconv.ServiceVersion (v : String) : KeyValue := KeyString "service.version" v

/-- A `debug.BuildSetting`. -/
structure BuildSetting where
  Key : String
  Value : String
  deriving DecidableEq, Repr

/-- The part of `debug.BuildInfo` the spec talks about. -/
structure BuildInfo where
  GoVersion : String
  Settings : List BuildSetting
  deriving DecidableEq, Repr

/-- The four exporter constructors called by `telemetry`. -/
inductive ExporterCtor where
  | stdouttrace
  | stdoutmetric
  | otlptracegrpc
  | otlpmetricgrpc
  deriving DecidableEq, Repr

/-- A successfully built `sdktrace.SpanExporter`, identified by its backend. -/
inductive SpanExporter where
  | stdouttrace
  | otlptracegrpc
  deriving DecidableEq, Repr

/-- A successfully built `sdkmetric.Exporter`, identified by its backend. -/
inductive MetricExporter where
  | stdoutmetric
  | otlpmetricgrpc
  deriving DecidableEq, Repr

/-- A `resource.Resource` built from attributes. -/
structure Resource where
  attrs : List KeyValue
  deriving DecidableEq, Repr

/-- Values of the `trace.TracerProvider` interface that the program creates. -/
inductive TracerProvider where
  | noop
  | sdk (res : Resource) (batcher : SpanExporter)
  deriving DecidableEq, Repr

/-- Values of the `metric.MeterProvider` interface that the program creates. -/
inductive MeterProvider where
  | noop
  | sdk (periodicReader : MetricExporter)
  deriving DecidableEq, Repr

/-- The members of the composite text-map propagator. -/
inductive Propagation where
  | TraceContext
  | Baggage
  deriving DecidableEq, Repr

/-- A `context.Context`: the background context or a timeout (in nanoseconds)
derived from a parent. -/
inductive Context where
  | Background
  | WithTimeout (parent : Context) (d : Nat)
  deriving DecidableEq, Repr

/-- The constant `time.Second`, in nanoseconds. -/
def time.Second : Nat := 1000000000

/-- Externally visible actions, in the order the program performs them. -/
inductive Event where
  | construct (c : ExporterCtor)
  | logWarn (msg : String)
  | logError (msg : String) (err : GoError)
  | buildTelemetryInfoCall
  | resourceNewCall (attrs : List KeyValue)
  | newTracerProvider (tp : TracerProvider)
  | newMeterProvider (mp : MeterProvider)
  | tracerShutdown (tp : TracerProvider) (ctx : Context)
  | meterShutdown (mp : MeterProvider) (ctx : Context)
  | setTracerProvider (tp : Option TracerProvider)
  | setTextMapPropagator (pr : Option (List Propagation))
  | setMeterProvider (mp : Option MeterProvider)
  | setErrorHandler
  | println (b : Option BuildInfo)
  | callHalt
  deriving DecidableEq, Repr

/-- Everything the program reads from outside itself. -/
structure World where
  /-- value of the `-version` flag after `flag.Parse` -/
  version : Bool
  /-- result of `os.LookupEnv("OTEL_EXPORTER")`: value and set-flag -/
  lookupEnv : String × Bool
  /-- result of `runtime.Version()` -/
  runtimeVersion : String
  /-- result of `debug.ReadBuildInfo()` held in the package variable -/
  buildInfo : Option BuildInfo
  /-- failure of `stdouttrace.New`, if any -/
  stdouttraceNew : Option GoError
  /-- failure of `stdoutmetric.New`, if any -/
  stdoutmetricNew : Option GoError
  /-- failure of `otlptracegrpc.New`, if any -/
  otlptracegrpcNew : Option GoError
  /-- failure of `otlpmetricgrpc.New`, if any -/
  otlpmetricgrpcNew : Option GoError
  /-- failure of `resource.New` on the given attributes, if any -/
  resourceNew : List KeyValue → Option GoError
  /-- failure of the tracer provider's `Shutdown`, if any -/
  tracerShutdown : Option GoError
  /-- failure of the meter provider's `Shutdown`, if any -/
  meterShutdown : Option GoError
  /-- scheduler choices for the two shutdown goroutines -/
  sched : List Bool

/-! ## `buildTelemetryInfo` -/

/-- Body of the `switch s.Key` inside the range loop: `attrs` is the slice
variable being appended to, `s` the element visited. -/
def tagStep (attrs : List KeyValue) (s : KeyValue) : List KeyValue :=
  if s.Key = "vcs.revision" ∨ s.Key = "vsc.time" then
    attrs ++ [KeyString ("build." ++ s.Key) s.Value.AsString]
  else if s.Key = "vcs.modified" then
    attrs ++ [KeyBool "build.vcs.modified" s.Value.AsBool]
  else
    attrs

/-- The loop `for _, s := range attrs`: Go evaluates the range expression
once, so the elements visited are those of the slice as it was on entry, while
the appends go to the variable `attrs`. -/
def tagLoop (attrs : List KeyValue) : List KeyValue :=
  attrs.foldl tagStep attrs

/-- The function `buildTelemetryInfo`.  The package variable `buildInfo` is in
scope (it is part of `w`) but the body never reads it. -/
def buildTelemetryInfo (w : World) : List KeyValue :=
  let attrs := [
    semconv.ServiceName "api",
    semconv.ServiceVersion "1.0.0",
    KeyString "build.go" w.runtimeVersion ]
  tagLoop attrs

/-! ## `program.telemetry` and its halt closure -/

/-- The `*slog.Logger` held by the program; `main` always installs the default
logger, whose output is recorded as `logWarn` and `logError` events. -/
inductive Logger where
  | Default
  deriving DecidableEq, Repr

/-- The struct `program`; a nil interface field is `none`. -/
structure program where
  log : Logger
  tracer : Option TracerProvider
  propagator : Option (List Propagation)
  meter : Option MeterProvider
  deriving DecidableEq, Repr

/-- The function value returned as `halt`: the empty closure `func() {}` of the
default case, or the closure of lines 140-158 together with the variables it
captures (`ctx`, `tp`, `mp`). -/
inductive Halt where
  | noop
  | live (ctx : Context) (tp : TracerProvider) (mp : MeterProvider)
  deriving DecidableEq, Repr

/-- One possible interleaving of the atomic actions of two goroutines, chosen
by the scheduler choices `s` (`true`: the first goroutine moves next).  A
goroutine that has finished leaves the rest to the other; when the choices run
out the first goroutine runs to completion before the second. -/
def merge {α : Type} : List Bool → List α → List α → List α
  | _, [], ys => ys
  | _, x :: xs, [] => x :: xs
  | [], x :: xs, y :: ys => (x :: xs) ++ (y :: ys)
  | true :: s, x :: xs, y :: ys => x :: merge s xs (y :: ys)
  | false :: s, x :: xs, y :: ys => y :: merge s (x :: xs) ys

/-- First goroutine of the halt closure: `tp.Shutdown(haltCtx)`, and an error
log entry when it fails. -/
def tracerGoroutine (w : World) (tp : TracerProvider) (haltCtx : Context) : List Event :=
  Event.tracerShutdown tp haltCtx ::
    (match w.tracerShutdown with
     | some err => [Event.logError "telemetry tracer shutdown" err]
     | none => [])

/-- Second goroutine of the halt closure: `mp.Shutdown(haltCtx)`, and an error
log entry when it fails. -/
def meterGoroutine (w : World) (mp : MeterProvider) (haltCtx : Context) : List Event :=
  Event.meterShutdown mp haltCtx ::
    (match w.meterShutdown with
     | some err => [Event.logError "telemetry meter shutdown" err]
     | none => [])

/-- Invoking a halt closure: the events it performs before `wg.Wait()` lets it
return. -/
def Halt.run (w : World) : Halt → List Event
  | .noop => []
  | .live ctx tp mp =>
    let haltCtx := Context.WithTimeout ctx time.Second
    merge w.sched (tracerGoroutine w tp haltCtx) (meterGoroutine w mp haltCtx)

/-- What a call of `telemetry` leaves behind: the program struct after the
call, the two results `halt` and `err` (nil is `none`), and the events
performed. -/
structure TelemetryResult where
  p : program
  halt : Option Halt
  err : Option GoError
  events : List Event
  deriving DecidableEq, Repr

/-- The `default:` case of the switch (lines 124-127), reached with the events
performed so far. -/
def telemetryDefault (p : program) (events : List Event) : TelemetryResult :=
  { p := { p with tracer := some TracerProvider.noop, meter := some MeterProvider.noop },
    halt := some Halt.noop,
    err := none,
    events := events ++
      [Event.newTracerProvider TracerProvider.noop, Event.newMeterProvider MeterProvider.noop] }

/-- The code after the switch (lines 130-158), reached with both exporters
built. -/
def telemetryLive (p : program) (w : World) (ctx : Context) (tr : SpanExporter)
    (mt : MetricExporter) (events : List Event) : TelemetryResult :=
  let attrs := buildTelemetryInfo w
  let events := events ++ [Event.buildTelemetryInfoCall, Event.resourceNewCall attrs]
  match w.resourceNew attrs with
  | some err =>
    { p := p, halt := none,
      err := some (GoError.Errorf "cannot init tracer resource: " err),
      events := events }
  | none =>
    let res : Resource := ⟨attrs⟩
    let tp := TracerProvider.sdk res tr
    let mp := MeterProvider.sdk mt
    { p := { p with tracer := some tp, meter := some mp },
      halt := some (Halt.live ctx tp mp),
      err := none,
      events := events ++ [Event.newTracerProvider tp, Event.newMeterProvider mp] }

/-- The method `(*program).telemetry`. -/
def program.telemetry (p : program) (w : World) : TelemetryResult :=
  let ctx := Context.Background
  let p := { p with propagator := some [Propagation.TraceContext, Propagation.Baggage] }
  let exporter := w.lookupEnv.1
  let ok := w.lookupEnv.2
  if exporter = "stdout" then
    match w.stdouttraceNew with
    | some err =>
      { p := p, halt := none, err := some (GoError.Errorf "stdouttrace: " err),
        events := [Event.construct ExporterCtor.stdouttrace] }
    | none =>
      match w.stdoutmetricNew with
      | some err =>
        { p := p, halt := none, err := some (GoError.Errorf "stdoutmetric: " err),
          events := [Event.construct ExporterCtor.stdouttrace,
                     Event.construct ExporterCtor.stdoutmetric] }
      | none =>
        telemetryLive p w ctx SpanExporter.stdouttrace MetricExporter.stdoutmetric
          [Event.construct ExporterCtor.stdouttrace, Event.construct ExporterCtor.stdoutmetric]
  else if exporter = "otlp" then
    match w.otlptracegrpcNew with
    | some err =>
      { p := p, halt := none, err := some (GoError.Errorf "otlptracegrpc: " err),
        events := [Event.construct ExporterCtor.otlptracegrpc] }
    | none =>
      match w.otlpmetricgrpcNew with
      | some err =>
        { p := p, halt := none, err := some (GoError.Errorf "otlpmetricgrpc: " err),
          events := [Event.construct ExporterCtor.otlptracegrpc,
                     Event.construct ExporterCtor.otlpmetricgrpc] }
      | none =>
        telemetryLive p w ctx SpanExporter.otlptracegrpc MetricExporter.otlpmetricgrpc
          [Event.construct ExporterCtor.otlptracegrpc, Event.construct ExporterCtor.otlpmetricgrpc]
  else if ok then
    telemetryDefault p [Event.logWarn "unknown OTEL_EXPORTER value"]
  else
    telemetryDefault p []

/-! ## `main` -/

/-- The process-wide defaults of the `otel` package that `main` sets. -/
structure Globals where
  tracerProvider : Option TracerProvider
  propagator : Option (List Propagation)
  meterProvider : Option MeterProvider
  errorHandlerSet : Bool
  deriving DecidableEq, Repr

/-- How `main` ends: it returns, calls `os.Exit(code)`, or panics. -/
inductive ExitStatus where
  | returned
  | exit (code : Nat)
  | panic
  deriving DecidableEq, Repr

/-- What a run of `main` leaves behind. -/
structure MainResult where
  events : List Event
  globals : Globals
  status : ExitStatus
  deriving DecidableEq, Repr

/-- The function `main`, started with the `otel` globals `g`. -/
def main (w : World) (g : Globals) : MainResult :=
  if w.version then
    { events := [Event.println w.buildInfo], globals := g, status := ExitStatus.exit 2 }
  else
    let p : program := { log := Logger.Default, tracer := none, propagator := none, meter := none }
    let r := p.telemetry w
    match r.err with
    | some err =>
      { events := r.events ++ [Event.logError "cannot initialize telemetry" err],
        globals := g, status := ExitStatus.exit 1 }
    | none =>
      let g1 : Globals :=
        { tracerProvider := r.p.tracer, propagator := r.p.propagator,
          meterProvider := r.p.meter, errorHandlerSet := true }
      let events := r.events ++
        [Event.setTracerProvider r.p.tracer, Event.setTextMapPropagator r.p.propagator,
         Event.setMeterProvider r.p.meter, Event.setErrorHandler]
      -- the deferred calls run in reverse order: haltTelemetry(), then the err check
      match r.halt with
      | none => { events := events, globals := g1, status := ExitStatus.panic }
      | some h =>
        { events := events ++ [Event.callHalt] ++ h.run w, globals := g1,
          status := if r.err.isSome then ExitStatus.exit 1 else ExitStatus.returned }

/-! ## Observations on effect traces and concrete worlds -/

/-- The exporter constructors called in a trace, in call order. -/
def constructed (es : List Event) : List ExporterCtor :=
  es.filterMap fun e =>
    match e with
    | Event.construct c => some c
    | _ => none

/-- The messages of the warnings logged in a trace, in order. -/
def warnings (es : List Event) : List String :=
  es.filterMap fun e =>
    match e with
    | Event.logWarn msg => some msg
    | _ => none

/-- Whether an event is one of the four global registrations of `main`. -/
def Event.isRegistration : Event → Bool
  | Event.setTracerProvider _ => true
  | Event.setTextMapPropagator _ => true
  | Event.setMeterProvider _ => true
  | Event.setErrorHandler => true
  | _ => false

/-- Whether an event is the construction of a tracer or meter provider. -/
def Event.isProviderConstruction : Event → Bool
  | Event.newTracerProvider _ => true
  | Event.newMeterProvider _ => true
  | _ => false

/-- Whether an event is a `Shutdown` call on a provider. -/
def Event.isShutdown : Event → Bool
  | Event.tracerShutdown _ _ => true
  | Event.meterShutdown _ _ => true
  | _ => false

/-- An error value `e` that wraps `cause` and whose message is `pre` followed
by the message of `cause`. -/
def WrapsWith (e : Option GoError) (pre : String) (cause : GoError) : Prop :=
  ∃ x, e = some x ∧ x.Unwrap = some cause ∧ x.Error = pre ++ cause.Error

/-- The program struct that `main` builds before calling `telemetry`. -/
def program0 : program :=
  { log := Logger.Default, tracer := none, propagator := none, meter := none }

/-- Globals before `main` has registered anything. -/
def globals0 : Globals :=
  { tracerProvider := none, propagator := none, meterProvider := none, errorHandlerSet := false }

/-- A build-information record with a VCS revision and a modification flag. -/
def vcsBuildInfo : BuildInfo :=
  { GoVersion := "go1.21.0",
    Settings := [⟨"vcs.revision", "abc123"⟩, ⟨"vcs.modified", "true"⟩] }

/-- A world with `OTEL_EXPORTER=stdout` in which every library call succeeds. -/
def stdoutWorld : World :=
  { version := false,
    lookupEnv := ("stdout", true),
    runtimeVersion := "go1.21.0",
    buildInfo := some vcsBuildInfo,
    stdouttraceNew := none,
    stdoutmetricNew := none,
    otlptracegrpcNew := none,
    otlpmetricgrpcNew := none,
    resourceNew := fun _ => none,
    tracerShutdown := none,
    meterShutdown := none,
    sched := [] }

/-- A world with `OTEL_EXPORTER` set to the empty string. -/
def emptySetWorld : World := { stdoutWorld with lookupEnv := ("", true) }

/-- A world with `OTEL_EXPORTER` absent. -/
def unsetWorld : World := { stdoutWorld with lookupEnv := ("", false) }

/-- A world with `OTEL_EXPORTER=bogus`. -/
def bogusWorld : World := { stdoutWorld with lookupEnv := ("bogus", true) }

/-- A world with `OTEL_EXPORTER=otlp` in which every library call succeeds. -/
def otlpWorld : World := { stdoutWorld with lookupEnv := ("otlp", true) }

/-- A world with `OTEL_EXPORTER=stdout` in which `stdouttrace.New` fails (and
`stdoutmetric.New` would fail too). -/
def traceFailWorld : World :=
  { stdoutWorld with
    stdouttraceNew := some (GoError.New "trace boom"),
    stdoutmetricNew := some (GoError.New "metric boom") }

/-- A world with `OTEL_EXPORTER=stdout` in which `resource.New` fails. -/
def resourceFailWorld : World :=
  { stdoutWorld with resourceNew := fun _ => some (GoError.New "resource boom") }

/-- A world with `OTEL_EXPORTER=stdout` in which both shutdowns fail and the
scheduler lets the meter goroutine move first. -/
def shutdownFailWorld : World :=
  { stdoutWorld with
    tracerShutdown := some (GoError.New "tracer deadline"),
    meterShutdown := some (GoError.New "meter deadline"),
    sched := [false, true] }

/-- A world with `OTEL_EXPORTER=otlp` in which the tracer shutdown fails and
the scheduler lets the tracer goroutine move first, then the meter goroutine. -/
def otlpRaceWorld : World :=
  { otlpWorld with
    tracerShutdown := some (GoError.New "context deadline exceeded"),
    sched := [true, false] }

/-! ## `buildTelemetryInfo`: theorems -/

/-- C6: for every world (so for every ambient build-information record)
`buildTelemetryInfo` returns exactly the three starter attributes in order,
service.name = "api", service.version = "1.0.0", build.go = the toolchain
version; no starter entry matches a case of the switch, so the loop appends
nothing whatever the slice holds, the keys of the result are pairwise
distinct, and running the tagging loop again over the result leaves it
unchanged. -/
theorem buildTelemetryInfo_starter_only (w : World) :
    buildTelemetryInfo w =
        [⟨"service.name", Value.STRING "api"⟩,
         ⟨"service.version", Value.STRING "1.0.0"⟩,
         ⟨"build.go", Value.STRING w.runtimeVersion⟩]
      ∧ (∀ s ∈ [semconv.ServiceName "api", semconv.ServiceVersion "1.0.0",
                 KeyString "build.go" w.runtimeVersion],
           ∀ acc : List KeyValue, tagStep acc s = acc)
      ∧ ((buildTelemetryInfo w).map KeyValue.Key).Nodup
      ∧ tagLoop (buildTelemetryInfo w) = buildTelemetryInfo w := by
  have hstep : ∀ s ∈ [semconv.ServiceName "api", semconv.ServiceVersion "1.0.0",
      KeyString "build.go" w.runtimeVersion], ∀ acc : List KeyValue, tagStep acc s = acc := by
    intro s hs acc
    simp only [List.mem_cons, List.mem_singleton, List.not_mem_nil, or_false] at hs
    rcases hs with rfl | rfl | rfl <;>
      simp [tagStep, semconv.ServiceName, semconv.ServiceVersion, KeyString]
  have hval : buildTelemetryInfo w =
      [⟨"service.name", Value.STRING "api"⟩,
       ⟨"service.version", Value.STRING "1.0.0"⟩,
       ⟨"build.go", Value.STRING w.runtimeVersion⟩] := by
    simp only [buildTelemetryInfo, tagLoop, List.foldl_cons, List.foldl_nil]
    rw [hstep _ (by simp), hstep _ (by simp), hstep _ (by simp)]
    rfl
  refine ⟨hval, hstep, ?_, ?_⟩
  · rw [hval]
    simp only [List.map_cons, List.map_nil]
    decide
  · rw [hval]
    simp only [tagLoop, List.foldl_cons, List.foldl_nil]
    have h1 := hstep _ (List.mem_cons_self _ _)
    have h2 := hstep _ (List.mem_cons_of_mem _ (List.mem_cons_self _ _))
    have h3 := hstep _ (List.mem_cons_of_mem _ (List.mem_cons_of_mem _ (List.mem_cons_self _ _)))
    simp only [semconv.ServiceName, semconv.ServiceVersion, KeyString] at h1 h2 h3
    rw [h1, h2, h3]

/-- C7: evaluated in a world whose build information carries the settings
vcs.revision = "abc123" and vcs.modified = "true", `buildTelemetryInfo`
returns the three starter attributes only: neither `build.vcs.revision` nor
`build.vcs.modified` is a key of the result. -/
theorem buildTelemetryInfo_drops_vcs_settings :
    stdoutWorld.buildInfo = some vcsBuildInfo
      ∧ (⟨"vcs.revision", "abc123"⟩ : BuildSetting) ∈ vcsBuildInfo.Settings
      ∧ (⟨"vcs.modified", "true"⟩ : BuildSetting) ∈ vcsBuildInfo.Settings
      ∧ buildTelemetryInfo stdoutWorld =
          [⟨"service.name", Value.STRING "api"⟩,
           ⟨"service.version", Value.STRING "1.0.0"⟩,
           ⟨"build.go", Value.STRING "go1.21.0"⟩]
      ∧ "build.vcs.revision" ∉ (buildTelemetryInfo stdoutWorld).map KeyValue.Key
      ∧ "build.vcs.modified" ∉ (buildTelemetryInfo stdoutWorld).map KeyValue.Key := by
  refine ⟨rfl, by decide, by decide, by decide, by decide, by decide⟩

/-! ## `program.telemetry`: theorems -/

/-- C2: when the value looked up for `OTEL_EXPORTER` is neither "stdout" nor
"otlp" (unset, empty or unrecognized), `telemetry` returns a nil error, sets
`p.tracer` and `p.meter` to the no-op providers, returns the empty halt
closure, whose invocation performs no event in any world (no shutdown call, no
log entry), constructs no exporter, and calls neither `buildTelemetryInfo` nor
`resource.New`. -/
theorem telemetry_disabled (p : program) (w : World)
    (h1 : w.lookupEnv.1 ≠ "stdout") (h2 : w.lookupEnv.1 ≠ "otlp") :
    (p.telemetry w).err = none
      ∧ (p.telemetry w).p.tracer = some TracerProvider.noop
      ∧ (p.telemetry w).p.meter = some MeterProvider.noop
      ∧ (∃ h, (p.telemetry w).halt = some h ∧ ∀ w1 : World, h.run w1 = [])
      ∧ constructed (p.telemetry w).events = []
      ∧ Event.buildTelemetryInfoCall ∉ (p.telemetry w).events
      ∧ (∀ attrs, Event.resourceNewCall attrs ∉ (p.telemetry w).events) := by
  unfold program.telemetry
  simp only [h1, h2, if_false]
  split <;> simp [telemetryDefault, constructed, Halt.run]

/-- Witness for C2 at `OTEL_EXPORTER=bogus`. -/
theorem telemetry_disabled_witness :
    (program0.telemetry bogusWorld).err = none
      ∧ (program0.telemetry bogusWorld).p.tracer = some TracerProvider.noop
      ∧ constructed (program0.telemetry bogusWorld).events = [] := by
  have h := telemetry_disabled program0 bogusWorld (by decide) (by decide)
  exact ⟨h.1, h.2.1, h.2.2.2.2.1⟩

/-- C1: for every lookup result, `telemetry` calls an exporter constructor if
and only if the value is exactly "stdout" or exactly "otlp"; when the two
constructors of the selected backend succeed it has called exactly that
backend's trace constructor and then its metric constructor, once each, and
when nothing else fails either (`resource.New`) it returns a nil error with
providers built on those exporters; for every other value, set or unset, it
returns a nil error, constructs nothing and leaves the no-op providers. -/
theorem telemetry_live_iff_recognized (p : program) (w : World) :
    (constructed (p.telemetry w).events ≠ [] ↔
        (w.lookupEnv.1 = "stdout" ∨ w.lookupEnv.1 = "otlp"))
      ∧ (w.lookupEnv.1 = "stdout" → w.stdouttraceNew = none → w.stdoutmetricNew = none →
          constructed (p.telemetry w).events
              = [ExporterCtor.stdouttrace, ExporterCtor.stdoutmetric]
            ∧ (w.resourceNew (buildTelemetryInfo w) = none →
                (p.telemetry w).err = none
                  ∧ (p.telemetry w).p.tracer
                      = some (TracerProvider.sdk ⟨buildTelemetryInfo w⟩ SpanExporter.stdouttrace)
                  ∧ (p.telemetry w).p.meter
                      = some (MeterProvider.sdk MetricExporter.stdoutmetric)))
      ∧ (w.lookupEnv.1 = "otlp" → w.otlptracegrpcNew = none → w.otlpmetricgrpcNew = none →
          constructed (p.telemetry w).events
              = [ExporterCtor.otlptracegrpc, ExporterCtor.otlpmetricgrpc]
            ∧ (w.resourceNew (buildTelemetryInfo w) = none →
                (p.telemetry w).err = none
                  ∧ (p.telemetry w).p.tracer
                      = some (TracerProvider.sdk ⟨buildTelemetryInfo w⟩ SpanExporter.otlptracegrpc)
                  ∧ (p.telemetry w).p.meter
                      = some (MeterProvider.sdk MetricExporter.otlpmetricgrpc)))
      ∧ (w.lookupEnv.1 ≠ "stdout" → w.lookupEnv.1 ≠ "otlp" →
          (p.telemetry w).err = none
            ∧ constructed (p.telemetry w).events = []
            ∧ (p.telemetry w).p.tracer = some TracerProvider.noop
            ∧ (p.telemetry w).p.meter = some MeterProvider.noop) := by
  unfold program.telemetry telemetryLive telemetryDefault
  by_cases h1 : w.lookupEnv.1 = "stdout"
  · cases ht : w.stdouttraceNew <;> cases hm : w.stdoutmetricNew <;>
      cases hr : w.resourceNew (buildTelemetryInfo w) <;>
      simp [h1, ht, hm, hr, constructed]
  · by_cases h2 : w.lookupEnv.1 = "otlp"
    · cases ht : w.otlptracegrpcNew <;> cases hm : w.otlpmetricgrpcNew <;>
        cases hr : w.resourceNew (buildTelemetryInfo w) <;>
        simp [h2, ht, hm, hr, constructed]
    · cases hok : w.lookupEnv.2 <;> simp [h1, h2, hok, constructed]

/-- Witness for C1: the three cases at `OTEL_EXPORTER=stdout`, `otlp` and
`bogus`. -/
theorem telemetry_live_iff_recognized_witness :
    (constructed (program0.telemetry stdoutWorld).events
        = [ExporterCtor.stdouttrace, ExporterCtor.stdoutmetric]
      ∧ (program0.telemetry stdoutWorld).err = none)
      ∧ (constructed (program0.telemetry otlpWorld).events
        = [ExporterCtor.otlptracegrpc, ExporterCtor.otlpmetricgrpc]
      ∧ (program0.telemetry otlpWorld).err = none)
      ∧ ((program0.telemetry bogusWorld).err = none
        ∧ constructed (program0.telemetry bogusWorld).events = []) := by
  have hs := (telemetry_live_iff_recognized program0 stdoutWorld).2.1 rfl rfl rfl
  have ho := (telemetry_live_iff_recognized program0 otlpWorld).2.2.1 rfl rfl rfl
  have hb := (telemetry_live_iff_recognized program0 bogusWorld).2.2.2 (by decide) (by decide)
  exact ⟨⟨hs.1, (hs.2 rfl).1⟩, ⟨ho.1, (ho.2 rfl).1⟩, ⟨hb.1, hb.2.1⟩⟩

/-- C3 fails as stated: with `OTEL_EXPORTER` set to the empty string the
lookup yields the empty value with the set-flag true, and `telemetry` logs the
unknown-exporter warning although the value is empty. -/
theorem telemetry_warns_on_set_empty :
    emptySetWorld.lookupEnv = ("", true)
      ∧ ¬ ("unknown OTEL_EXPORTER value" ∈ warnings (program0.telemetry emptySetWorld).events ↔
            (emptySetWorld.lookupEnv.1 ≠ "" ∧ emptySetWorld.lookupEnv.1 ≠ "stdout"
              ∧ emptySetWorld.lookupEnv.1 ≠ "otlp")) := by
  refine ⟨rfl, ?_⟩
  intro h
  have hw : "unknown OTEL_EXPORTER value" ∈
      warnings (program0.telemetry emptySetWorld).events := by decide
  exact (h.1 hw).1 rfl

/-- C3 as amended: `telemetry` logs the unknown-exporter warning exactly when
the set-flag of the lookup is true and the value is neither "stdout" nor
"otlp" (a variable set to the empty string included), it logs at most one
warning, and when the variable is absent (empty value, set-flag false) it
reaches the disabled state with no warning: the only events are the
constructions of the two no-op providers. -/
theorem telemetry_warns_iff_set_unrecognized (p : program) (w : World) :
    ("unknown OTEL_EXPORTER value" ∈ warnings (p.telemetry w).events ↔
        (w.lookupEnv.2 = true ∧ w.lookupEnv.1 ≠ "stdout" ∧ w.lookupEnv.1 ≠ "otlp"))
      ∧ (warnings (p.telemetry w).events).length ≤ 1
      ∧ (w.lookupEnv = ("", false) →
          warnings (p.telemetry w).events = []
            ∧ (p.telemetry w).events =
                [Event.newTracerProvider TracerProvider.noop,
                 Event.newMeterProvider MeterProvider.noop]
            ∧ (p.telemetry w).err = none
            ∧ (p.telemetry w).halt = some Halt.noop
            ∧ (p.telemetry w).p.tracer = some TracerProvider.noop
            ∧ (p.telemetry w).p.meter = some MeterProvider.noop) := by
  unfold program.telemetry telemetryLive telemetryDefault
  by_cases h1 : w.lookupEnv.1 = "stdout"
  · have hne : w.lookupEnv ≠ ("", false) := by
      intro h; rw [h] at h1; exact absurd h1 (by decide)
    cases ht : w.stdouttraceNew <;> cases hm : w.stdoutmetricNew <;>
      cases hr : w.resourceNew (buildTelemetryInfo w) <;>
      simp [h1, ht, hm, hr, hne, warnings]
  · by_cases h2 : w.lookupEnv.1 = "otlp"
    · have hne : w.lookupEnv ≠ ("", false) := by
        intro h; rw [h] at h2; exact absurd h2 (by decide)
      cases ht : w.otlptracegrpcNew <;> cases hm : w.otlpmetricgrpcNew <;>
        cases hr : w.resourceNew (buildTelemetryInfo w) <;>
        simp [h2, ht, hm, hr, hne, warnings]
    · cases hok : w.lookupEnv.2
      · simp [h1, h2, hok, warnings]
      · have hne : w.lookupEnv ≠ ("", false) := by
          intro h; rw [h] at hok; exact absurd hok (by decide)
        simp [h1, h2, hok, hne, warnings]

/-- Witness for C3 as amended, at an absent `OTEL_EXPORTER`. -/
theorem telemetry_warns_iff_set_unrecognized_witness :
    warnings (program0.telemetry unsetWorld).events = []
      ∧ (program0.telemetry unsetWorld).err = none
      ∧ "unknown OTEL_EXPORTER value" ∈ warnings (program0.telemetry bogusWorld).events := by
  have hu := (telemetry_warns_iff_set_unrecognized program0 unsetWorld).2.2 rfl
  have hb := (telemetry_warns_iff_set_unrecognized program0 bogusWorld).1.2
    ⟨rfl, by decide, by decide⟩
  exact ⟨hu.1, hu.2.2.1, hb⟩

/-- C4: on a live value, a failing exporter constructor makes `telemetry`
return a nil halt closure and an error that wraps the constructor's error and
whose message is the failed exporter's name, a colon and a blank, followed by
the constructor's message; when the trace constructor fails the metric
constructor is not called (whatever it would have returned), and the error
names the trace exporter. -/
theorem telemetry_constructor_failure (p : program) (w : World) (cause : GoError) :
    (w.lookupEnv.1 = "stdout" → w.stdouttraceNew = some cause →
        (p.telemetry w).halt = none
          ∧ WrapsWith (p.telemetry w).err "stdouttrace: " cause
          ∧ constructed (p.telemetry w).events = [ExporterCtor.stdouttrace])
      ∧ (w.lookupEnv.1 = "stdout" → w.stdouttraceNew = none →
          w.stdoutmetricNew = some cause →
        (p.telemetry w).halt = none
          ∧ WrapsWith (p.telemetry w).err "stdoutmetric: " cause
          ∧ constructed (p.telemetry w).events
              = [ExporterCtor.stdouttrace, ExporterCtor.stdoutmetric])
      ∧ (w.lookupEnv.1 = "otlp" → w.otlptracegrpcNew = some cause →
        (p.telemetry w).halt = none
          ∧ WrapsWith (p.telemetry w).err "otlptracegrpc: " cause
          ∧ constructed (p.telemetry w).events = [ExporterCtor.otlptracegrpc])
      ∧ (w.lookupEnv.1 = "otlp" → w.otlptracegrpcNew = none →
          w.otlpmetricgrpcNew = some cause →
        (p.telemetry w).halt = none
          ∧ WrapsWith (p.telemetry w).err "otlpmetricgrpc: " cause
          ∧ constructed (p.telemetry w).events
              = [ExporterCtor.otlptracegrpc, ExporterCtor.otlpmetricgrpc]) := by
  unfold program.telemetry telemetryLive telemetryDefault WrapsWith
  refine ⟨?_, ?_, ?_, ?_⟩
  · intro h1 ht
    simp [h1, ht, constructed, GoError.Unwrap, GoError.Error]
  · intro h1 ht hm
    simp [h1, ht, hm, constructed, GoError.Unwrap, GoError.Error]
  · intro h2 ht
    simp [h2, ht, constructed, GoError.Unwrap, GoError.Error]
  · intro h2 ht hm
    simp [h2, ht, hm, constructed, GoError.Unwrap, GoError.Error]

/-- Witness for C4: `OTEL_EXPORTER=stdout` with a failing `stdouttrace.New`. -/
theorem telemetry_constructor_failure_witness :
    (program0.telemetry traceFailWorld).halt = none
      ∧ WrapsWith (program0.telemetry traceFailWorld).err "stdouttrace: "
          (GoError.New "trace boom")
      ∧ constructed (program0.telemetry traceFailWorld).events = [ExporterCtor.stdouttrace] :=
  (telemetry_constructor_failure program0 traceFailWorld (GoError.New "trace boom")).1 rfl rfl

/-- The error result of `telemetry` does not depend on the program struct. -/
theorem telemetry_err_indep (p q : program) (w : World) :
    (p.telemetry w).err = (q.telemetry w).err := by
  unfold program.telemetry telemetryLive telemetryDefault
  by_cases h1 : w.lookupEnv.1 = "stdout"
  · cases ht : w.stdouttraceNew <;> cases hm : w.stdoutmetricNew <;>
      cases hr : w.resourceNew (buildTelemetryInfo w) <;> simp [h1, ht, hm, hr]
  · by_cases h2 : w.lookupEnv.1 = "otlp"
    · cases ht : w.otlptracegrpcNew <;> cases hm : w.otlpmetricgrpcNew <;>
        cases hr : w.resourceNew (buildTelemetryInfo w) <;> simp [h2, ht, hm, hr]
    · cases hok : w.lookupEnv.2 <;> simp [h1, h2, hok]

/-- The method `telemetry` performs no global registration and no shutdown,
and never invokes a halt closure. -/
theorem telemetry_events_local (p : program) (w : World) :
    ∀ e ∈ (p.telemetry w).events,
      e.isRegistration = false ∧ e.isShutdown = false ∧ e ≠ Event.callHalt := by
  unfold program.telemetry telemetryLive telemetryDefault
  by_cases h1 : w.lookupEnv.1 = "stdout"
  · cases ht : w.stdouttraceNew <;> cases hm : w.stdoutmetricNew <;>
      cases hr : w.resourceNew (buildTelemetryInfo w) <;>
      simp [h1, ht, hm, hr, Event.isRegistration, Event.isShutdown]
  · by_cases h2 : w.lookupEnv.1 = "otlp"
    · cases ht : w.otlptracegrpcNew <;> cases hm : w.otlpmetricgrpcNew <;>
        cases hr : w.resourceNew (buildTelemetryInfo w) <;>
        simp [h2, ht, hm, hr, Event.isRegistration, Event.isShutdown]
    · cases hok : w.lookupEnv.2 <;>
        simp [h1, h2, hok, Event.isRegistration, Event.isShutdown]

/-- What `main` does once `telemetry` has returned the error `err`. -/
theorem main_of_telemetry_error (w : World) (g : Globals) (err : GoError)
    (hv : w.version = false) (he : (program0.telemetry w).err = some err) :
    main w g =
      { events := (program0.telemetry w).events
          ++ [Event.logError "cannot initialize telemetry" err],
        globals := g, status := ExitStatus.exit 1 } := by
  simp only [program0] at he
  simp [main, hv, he, program0]

/-- C5: whenever `telemetry` returns a non-nil error, `p.tracer` and `p.meter`
hold the values they had before the call, the halt result is nil, no tracer or
meter provider has been constructed, and `main` performs none of the four
global registrations and leaves the globals as they were, ending in
`os.Exit(1)` (or `os.Exit(2)` under the version flag) instead of returning. -/
theorem telemetry_failure_atomic (p : program) (w : World) (g : Globals)
    (h : (p.telemetry w).err ≠ none) :
    (p.telemetry w).p.tracer = p.tracer
      ∧ (p.telemetry w).p.meter = p.meter
      ∧ (p.telemetry w).halt = none
      ∧ (∀ e ∈ (p.telemetry w).events, e.isProviderConstruction = false)
      ∧ (main w g).globals = g
      ∧ (∀ e ∈ (main w g).events, e.isRegistration = false)
      ∧ (main w g).status = (if w.version then ExitStatus.exit 2 else ExitStatus.exit 1) := by
  have h0 : (program0.telemetry w).err ≠ none := by
    rwa [telemetry_err_indep program0 p w]
  obtain ⟨err, he⟩ := Option.ne_none_iff_exists'.mp h0
  have hmain : (main w g).globals = g
      ∧ (∀ e ∈ (main w g).events, e.isRegistration = false)
      ∧ (main w g).status = (if w.version then ExitStatus.exit 2 else ExitStatus.exit 1) := by
    cases hv : w.version
    · rw [main_of_telemetry_error w g err hv he]
      refine ⟨rfl, ?_, by simp⟩
      intro e hmem
      rcases List.mem_append.mp hmem with hmem | hmem
      · exact (telemetry_events_local program0 w e hmem).1
      · simp only [List.mem_singleton] at hmem
        subst hmem
        rfl
    · simp [main, hv, Event.isRegistration]
  refine ⟨?_, ?_, ?_, ?_, hmain⟩ <;>
  · revert h
    unfold program.telemetry telemetryLive telemetryDefault
    by_cases h1 : w.lookupEnv.1 = "stdout"
    · cases ht : w.stdouttraceNew <;> cases hm : w.stdoutmetricNew <;>
        cases hr : w.resourceNew (buildTelemetryInfo w) <;>
        simp [h1, ht, hm, hr, Event.isProviderConstruction]
    · by_cases h2 : w.lookupEnv.1 = "otlp"
      · cases ht : w.otlptracegrpcNew <;> cases hm : w.otlpmetricgrpcNew <;>
          cases hr : w.resourceNew (buildTelemetryInfo w) <;>
          simp [h2, ht, hm, hr, Event.isProviderConstruction]
      · cases hok : w.lookupEnv.2 <;> simp [h1, h2, hok]

/-- Witness for C5: `OTEL_EXPORTER=stdout` with a failing `resource.New`. -/
theorem telemetry_failure_atomic_witness :
    (program0.telemetry resourceFailWorld).err ≠ none
      ∧ (program0.telemetry resourceFailWorld).p.tracer = none
      ∧ (program0.telemetry resourceFailWorld).p.meter = none
      ∧ (main resourceFailWorld globals0).globals = globals0
      ∧ (main resourceFailWorld globals0).status = ExitStatus.exit 1 := by
  have hne : (program0.telemetry resourceFailWorld).err ≠ none := by decide
  have h := telemetry_failure_atomic program0 resourceFailWorld globals0 hne
  exact ⟨hne, h.1, h.2.1, h.2.2.2.2.1, h.2.2.2.2.2.2⟩

/-! ## The halt closure and `main`: theorems -/

/-- Whatever the scheduler chooses, the merged trace holds the actions of both
goroutines, each as often as its goroutine performs it. -/
theorem merge_perm {α : Type} (s : List Bool) (a b : List α) :
    (merge s a b).Perm (a ++ b) := by
  induction s generalizing a b with
  | nil =>
    cases a with
    | nil => simp [merge]
    | cons x xs =>
      cases b with
      | nil => simp [merge]
      | cons y ys => simp [merge]
  | cons c s ih =>
    cases a with
    | nil => simp [merge]
    | cons x xs =>
      cases b with
      | nil => simp [merge]
      | cons y ys =>
        cases c with
        | true =>
          simp only [merge, List.cons_append]
          exact List.Perm.cons x (ih xs (y :: ys))
        | false =>
          simp only [merge]
          exact (List.Perm.cons y (ih (x :: xs) ys)).trans List.perm_middle.symm

/-- A failing `telemetry` leaves `p.tracer` and `p.meter` alone and returns a
nil halt closure. -/
theorem failed_telemetry_keeps_providers (p : program) (w : World)
    (h : (p.telemetry w).err ≠ none) :
    (p.telemetry w).p.tracer = p.tracer ∧ (p.telemetry w).p.meter = p.meter
      ∧ (p.telemetry w).halt = none := by
  revert h
  unfold program.telemetry telemetryLive telemetryDefault
  by_cases h1 : w.lookupEnv.1 = "stdout"
  · cases ht : w.stdouttraceNew <;> cases hm : w.stdoutmetricNew <;>
      cases hr : w.resourceNew (buildTelemetryInfo w) <;> simp [h1, ht, hm, hr]
  · by_cases h2 : w.lookupEnv.1 = "otlp"
    · cases ht : w.otlptracegrpcNew <;> cases hm : w.otlpmetricgrpcNew <;>
        cases hr : w.resourceNew (buildTelemetryInfo w) <;> simp [h2, ht, hm, hr]
    · cases hok : w.lookupEnv.2 <;> simp [h1, h2, hok]

/-- A halt closure performs only `Shutdown` calls and error log entries. -/
theorem halt_run_events (w : World) (h : Halt) :
    ∀ e ∈ h.run w, e ≠ Event.callHalt ∧ e.isRegistration = false := by
  cases h with
  | noop => simp [Halt.run]
  | live ctx tp mp =>
    intro e hmem
    have hmem1 := (merge_perm w.sched _ _).mem_iff.mp hmem
    revert hmem1
    cases ht : w.tracerShutdown <;> cases hm : w.meterShutdown <;>
      simp [tracerGoroutine, meterGoroutine, ht, hm] <;>
      (intro hcase; rcases hcase with rfl | rfl | rfl | rfl <;> simp [Event.isRegistration])

/-- A successful `telemetry` returns a non-nil halt closure. -/
theorem telemetry_success_halt (p : program) (w : World)
    (he : (p.telemetry w).err = none) :
    ∃ h, (p.telemetry w).halt = some h ∧ ∀ e ∈ h.run w, e ≠ Event.callHalt := by
  have hex : ∃ h, (p.telemetry w).halt = some h := by
    revert he
    unfold program.telemetry telemetryLive telemetryDefault
    by_cases h1 : w.lookupEnv.1 = "stdout"
    · cases ht : w.stdouttraceNew <;> cases hm : w.stdoutmetricNew <;>
        cases hr : w.resourceNew (buildTelemetryInfo w) <;> simp [h1, ht, hm, hr]
    · by_cases h2 : w.lookupEnv.1 = "otlp"
      · cases ht : w.otlptracegrpcNew <;> cases hm : w.otlpmetricgrpcNew <;>
          cases hr : w.resourceNew (buildTelemetryInfo w) <;> simp [h2, ht, hm, hr]
      · cases hok : w.lookupEnv.2 <;> simp [h1, h2, hok]
  obtain ⟨h, hh⟩ := hex
  exact ⟨h, hh, fun e hmem => (halt_run_events w h e hmem).1⟩

/-- Each goroutine's actions appear in the merged trace in that goroutine's
own order (first goroutine). -/
theorem merge_sublist_left {α : Type} (s : List Bool) (a b : List α) :
    a.Sublist (merge s a b) := by
  induction s generalizing a b with
  | nil =>
    cases a with
    | nil => exact List.nil_sublist _
    | cons x xs =>
      cases b with
      | nil => simp [merge]
      | cons y ys =>
        simp only [merge]
        exact List.sublist_append_left _ _
  | cons c s ih =>
    cases a with
    | nil => exact List.nil_sublist _
    | cons x xs =>
      cases b with
      | nil => simp [merge]
      | cons y ys =>
        cases c with
        | true =>
          simp only [merge]
          exact (ih xs (y :: ys)).cons₂ x
        | false =>
          simp only [merge]
          exact (ih (x :: xs) ys).cons y

/-- Each goroutine's actions appear in the merged trace in that goroutine's
own order (second goroutine). -/
theorem merge_sublist_right {α : Type} (s : List Bool) (a b : List α) :
    b.Sublist (merge s a b) := by
  induction s generalizing a b with
  | nil =>
    cases a with
    | nil => simp [merge]
    | cons x xs =>
      cases b with
      | nil => exact List.nil_sublist _
      | cons y ys =>
        simp only [merge]
        exact List.sublist_append_right _ _
  | cons c s ih =>
    cases a with
    | nil => simp [merge]
    | cons x xs =>
      cases b with
      | nil => exact List.nil_sublist _
      | cons y ys =>
        cases c with
        | true =>
          simp only [merge]
          exact (ih xs (y :: ys)).cons x
        | false =>
          simp only [merge]
          exact (ih (x :: xs) ys).cons₂ y

/-- On the live path a successful `telemetry` stores the SDK providers built on
the selected backend's exporters and returns the closure of lines 140-158 over
the background context and those same two providers. -/
theorem telemetry_live_halt (p : program) (w : World)
    (hlive : w.lookupEnv.1 = "stdout" ∨ w.lookupEnv.1 = "otlp")
    (he : (p.telemetry w).err = none) :
    ∃ tr mt,
      (p.telemetry w).p.tracer = some (TracerProvider.sdk ⟨buildTelemetryInfo w⟩ tr)
        ∧ (p.telemetry w).p.meter = some (MeterProvider.sdk mt)
        ∧ (p.telemetry w).halt = some (Halt.live Context.Background
            (TracerProvider.sdk ⟨buildTelemetryInfo w⟩ tr) (MeterProvider.sdk mt))
        ∧ ((w.lookupEnv.1 = "stdout" ∧ tr = SpanExporter.stdouttrace
              ∧ mt = MetricExporter.stdoutmetric)
            ∨ (w.lookupEnv.1 = "otlp" ∧ tr = SpanExporter.otlptracegrpc
              ∧ mt = MetricExporter.otlpmetricgrpc)) := by
  revert he
  unfold program.telemetry telemetryLive telemetryDefault
  rcases hlive with h1 | h2
  · cases ht : w.stdouttraceNew <;> cases hm : w.stdoutmetricNew <;>
      cases hr : w.resourceNew (buildTelemetryInfo w) <;> simp [h1, ht, hm, hr]
  · cases ht : w.otlptracegrpcNew <;> cases hm : w.otlpmetricgrpcNew <;>
      cases hr : w.resourceNew (buildTelemetryInfo w) <;> simp [h2, ht, hm, hr]

/-- The trace of a live halt closure, up to order: one `Shutdown` call on each
captured provider, with a context of one second derived from the captured
context, and one error entry for each shutdown that failed. -/
theorem halt_live_trace (w : World) (ctx : Context) (tp : TracerProvider)
    (mp : MeterProvider) :
    List.Perm ((Halt.live ctx tp mp).run w)
        ([Event.tracerShutdown tp (Context.WithTimeout ctx 1000000000),
          Event.meterShutdown mp (Context.WithTimeout ctx 1000000000)]
          ++ w.tracerShutdown.toList.map (Event.logError "telemetry tracer shutdown")
          ++ w.meterShutdown.toList.map (Event.logError "telemetry meter shutdown")) := by
  refine (merge_perm w.sched _ _).trans ?_
  cases ht : w.tracerShutdown <;> cases hm : w.meterShutdown <;>
    simp [tracerGoroutine, meterGoroutine, ht, hm, time.Second]
  · exact List.Perm.swap _ _ _
  · exact List.Perm.swap _ _ _

/-- C8: on the live path a successful `telemetry` returns the halt closure over
the tracer and meter providers it has just stored in `p`; for every pair of
shutdown outcomes and every schedule of the two goroutines, the events of that
closure are, up to order, one `Shutdown` call on the tracer provider, one on
the meter provider, one "telemetry tracer shutdown" error entry exactly when
the tracer shutdown failed and one "telemetry meter shutdown" error entry
exactly when the meter shutdown failed, and nothing else; the two kinds of
entry are always distinct; and `main` invokes exactly that closure and then
returns normally whatever the shutdowns did. -/
theorem telemetry_halt_logs_each_failure (p : program) (w : World)
    (hlive : w.lookupEnv.1 = "stdout" ∨ w.lookupEnv.1 = "otlp")
    (he : (p.telemetry w).err = none) :
    ∃ tp mp,
      (p.telemetry w).p.tracer = some tp
        ∧ (p.telemetry w).p.meter = some mp
        ∧ tp ≠ TracerProvider.noop
        ∧ mp ≠ MeterProvider.noop
        ∧ (p.telemetry w).halt = some (Halt.live Context.Background tp mp)
        ∧ (∀ w1 : World,
            List.Perm ((Halt.live Context.Background tp mp).run w1)
                ([Event.tracerShutdown tp (Context.WithTimeout Context.Background 1000000000),
                  Event.meterShutdown mp (Context.WithTimeout Context.Background 1000000000)]
                  ++ w1.tracerShutdown.toList.map (Event.logError "telemetry tracer shutdown")
                  ++ w1.meterShutdown.toList.map (Event.logError "telemetry meter shutdown"))
              ∧ ((Halt.live Context.Background tp mp).run w1).count
                  (Event.tracerShutdown tp (Context.WithTimeout Context.Background 1000000000))
                  = 1
              ∧ ((Halt.live Context.Background tp mp).run w1).count
                  (Event.meterShutdown mp (Context.WithTimeout Context.Background 1000000000))
                  = 1
              ∧ (((Halt.live Context.Background tp mp).run w1).filter Event.isShutdown).length
                  = 2)
        ∧ (∀ e1 e2 : GoError,
            Event.logError "telemetry tracer shutdown" e1
              ≠ Event.logError "telemetry meter shutdown" e2)
        ∧ (∀ g : Globals, w.version = false →
            (main w g).status = ExitStatus.returned
              ∧ ∃ pre, Event.callHalt ∉ pre
                  ∧ (∀ e ∈ pre, e.isShutdown = false)
                  ∧ (main w g).events
                      = pre ++ Event.callHalt :: (Halt.live Context.Background tp mp).run w) := by
  obtain ⟨tr, mt, htr, hmt, hh, hsel⟩ := telemetry_live_halt p w hlive he
  refine ⟨_, _, htr, hmt, by simp, by simp, hh, ?_, ?_, ?_⟩
  · intro w1
    have hperm := halt_live_trace w1 Context.Background
      (TracerProvider.sdk ⟨buildTelemetryInfo w⟩ tr) (MeterProvider.sdk mt)
    refine ⟨hperm, ?_, ?_, ?_⟩
    · rw [hperm.count_eq]
      cases ht : w1.tracerShutdown <;> cases hm : w1.meterShutdown <;>
        simp [List.count_cons]
    · rw [hperm.count_eq]
      cases ht : w1.tracerShutdown <;> cases hm : w1.meterShutdown <;>
        simp [List.count_cons]
    · rw [(hperm.filter _).length_eq]
      cases ht : w1.tracerShutdown <;> cases hm : w1.meterShutdown <;>
        simp [List.filter_cons, Event.isShutdown]
  · intro e1 e2 h
    injection h with hmsg _
    exact absurd hmsg (by decide)
  · intro g hv
    have he0 : (program0.telemetry w).err = none := by
      rw [telemetry_err_indep program0 p w]; exact he
    obtain ⟨tr0, mt0, _, _, hh0, hsel0⟩ := telemetry_live_halt program0 w hlive he0
    have hsame : tr0 = tr ∧ mt0 = mt := by
      rcases hsel with ⟨h1, rfl, rfl⟩ | ⟨h1, rfl, rfl⟩ <;>
        rcases hsel0 with ⟨h2, rfl, rfl⟩ | ⟨h2, rfl, rfl⟩ <;>
        first
          | exact ⟨rfl, rfl⟩
          | (rw [h1] at h2; exact absurd h2 (by decide))
    obtain ⟨rfl, rfl⟩ := hsame
    have hloc := telemetry_events_local program0 w
    have he1 := he0
    have hh1 := hh0
    simp only [program0] at he1 hh1
    refine ⟨by simp [main, hv, he1, hh1], ?_⟩
    refine ⟨(program0.telemetry w).events ++
      [Event.setTracerProvider (program0.telemetry w).p.tracer,
       Event.setTextMapPropagator (program0.telemetry w).p.propagator,
       Event.setMeterProvider (program0.telemetry w).p.meter,
       Event.setErrorHandler], ?_, ?_, ?_⟩
    · intro hmem
      rcases List.mem_append.mp hmem with hmem | hmem
      · exact (hloc _ hmem).2.2 rfl
      · simp at hmem
    · intro e hmem
      rcases List.mem_append.mp hmem with hmem | hmem
      · exact (hloc e hmem).2.1
      · simp only [List.mem_cons, List.mem_singleton, List.not_mem_nil, or_false] at hmem
        rcases hmem with rfl | rfl | rfl | rfl <;> rfl
    · simp [main, hv, he1, hh1, program0]

/-- Witness for C8: `OTEL_EXPORTER=stdout`, both shutdowns fail and the meter
goroutine moves first; the closure returned by `telemetry` performs both calls
on the SDK providers and logs two distinct error entries, and `main` still
returns normally. -/
theorem telemetry_halt_logs_each_failure_witness :
    (program0.telemetry shutdownFailWorld).halt
        = some (Halt.live Context.Background
            (TracerProvider.sdk ⟨buildTelemetryInfo shutdownFailWorld⟩ SpanExporter.stdouttrace)
            (MeterProvider.sdk MetricExporter.stdoutmetric))
      ∧ (Halt.live Context.Background
            (TracerProvider.sdk ⟨buildTelemetryInfo shutdownFailWorld⟩ SpanExporter.stdouttrace)
            (MeterProvider.sdk MetricExporter.stdoutmetric)).run shutdownFailWorld
          = [Event.meterShutdown (MeterProvider.sdk MetricExporter.stdoutmetric)
               (Context.WithTimeout Context.Background 1000000000),
             Event.tracerShutdown
               (TracerProvider.sdk ⟨buildTelemetryInfo shutdownFailWorld⟩
                 SpanExporter.stdouttrace)
               (Context.WithTimeout Context.Background 1000000000),
             Event.logError "telemetry tracer shutdown" (GoError.New "tracer deadline"),
             Event.logError "telemetry meter shutdown" (GoError.New "meter deadline")]
      ∧ (main shutdownFailWorld globals0).status = ExitStatus.returned := by
  obtain ⟨tp, mp, _, _, _, _, _, _, _, hmain⟩ :=
    telemetry_halt_logs_each_failure program0 shutdownFailWorld (Or.inl rfl) (by decide)
  exact ⟨by decide, by decide, (hmain globals0 rfl).1⟩

/-- C10: on the live path a successful `telemetry` returns the halt closure
over the background context and the two providers it stored.  Invoked in any
world, that closure passes one and the same context, a timeout of 1000000000
nanoseconds (one second) derived from the background context, to the tracer
provider's `Shutdown` and to the meter provider's `Shutdown`, and calls no
other `Shutdown`.  Neither unit waits on the other: the scheduler may let
either one move first, and may let both `Shutdown` calls start before either
unit logs.  The closure returns for every schedule, and the trace at its
return holds the whole of each unit in that unit's own order (the join with
count 2) and nothing else, so it has at most four actions. -/
theorem telemetry_halt_joins_under_deadline (p : program) (w : World)
    (hlive : w.lookupEnv.1 = "stdout" ∨ w.lookupEnv.1 = "otlp")
    (he : (p.telemetry w).err = none) :
    ∃ tp mp,
      (p.telemetry w).p.tracer = some tp
        ∧ (p.telemetry w).p.meter = some mp
        ∧ (p.telemetry w).halt = some (Halt.live Context.Background tp mp)
        ∧ ∀ w1 : World,
            (∀ tp1 c, Event.tracerShutdown tp1 c ∈ (Halt.live Context.Background tp mp).run w1 →
                tp1 = tp ∧ c = Context.WithTimeout Context.Background 1000000000)
              ∧ (∀ mp1 c,
                  Event.meterShutdown mp1 c ∈ (Halt.live Context.Background tp mp).run w1 →
                  mp1 = mp ∧ c = Context.WithTimeout Context.Background 1000000000)
              ∧ List.Sublist
                  (Event.tracerShutdown tp (Context.WithTimeout Context.Background 1000000000)
                    :: w1.tracerShutdown.toList.map (Event.logError "telemetry tracer shutdown"))
                  ((Halt.live Context.Background tp mp).run w1)
              ∧ List.Sublist
                  (Event.meterShutdown mp (Context.WithTimeout Context.Background 1000000000)
                    :: w1.meterShutdown.toList.map (Event.logError "telemetry meter shutdown"))
                  ((Halt.live Context.Background tp mp).run w1)
              ∧ ((Halt.live Context.Background tp mp).run w1).length
                  = 2 + w1.tracerShutdown.toList.length + w1.meterShutdown.toList.length
              ∧ ((Halt.live Context.Background tp mp).run w1).length ≤ 4
              ∧ (∀ s, w1.sched = true :: s →
                  ((Halt.live Context.Background tp mp).run w1).head?
                    = some (Event.tracerShutdown tp
                        (Context.WithTimeout Context.Background 1000000000)))
              ∧ (∀ s, w1.sched = false :: s →
                  ((Halt.live Context.Background tp mp).run w1).head?
                    = some (Event.meterShutdown mp
                        (Context.WithTimeout Context.Background 1000000000)))
              ∧ (∀ s, w1.sched = true :: false :: s →
                  ((Halt.live Context.Background tp mp).run w1).take 2
                    = [Event.tracerShutdown tp
                         (Context.WithTimeout Context.Background 1000000000),
                       Event.meterShutdown mp
                         (Context.WithTimeout Context.Background 1000000000)])
              ∧ (∀ s, w1.sched = false :: true :: s →
                  ((Halt.live Context.Background tp mp).run w1).take 2
                    = [Event.meterShutdown mp
                         (Context.WithTimeout Context.Background 1000000000),
                       Event.tracerShutdown tp
                         (Context.WithTimeout Context.Background 1000000000)]) := by
  obtain ⟨tr, mt, htr, hmt, hh, _⟩ := telemetry_live_halt p w hlive he
  refine ⟨_, _, htr, hmt, hh, ?_⟩
  intro w1
  have hperm := halt_live_trace w1 Context.Background
    (TracerProvider.sdk ⟨buildTelemetryInfo w⟩ tr) (MeterProvider.sdk mt)
  have hleft := merge_sublist_left w1.sched
    (tracerGoroutine w1 (TracerProvider.sdk ⟨buildTelemetryInfo w⟩ tr)
      (Context.WithTimeout Context.Background time.Second))
    (meterGoroutine w1 (MeterProvider.sdk mt)
      (Context.WithTimeout Context.Background time.Second))
  have hright := merge_sublist_right w1.sched
    (tracerGoroutine w1 (TracerProvider.sdk ⟨buildTelemetryInfo w⟩ tr)
      (Context.WithTimeout Context.Background time.Second))
    (meterGoroutine w1 (MeterProvider.sdk mt)
      (Context.WithTimeout Context.Background time.Second))
  have hlen : ((Halt.live Context.Background (TracerProvider.sdk ⟨buildTelemetryInfo w⟩ tr)
        (MeterProvider.sdk mt)).run w1).length
      = 2 + w1.tracerShutdown.toList.length + w1.meterShutdown.toList.length := by
    rw [hperm.length_eq]
    simp only [List.length_append, List.length_map, List.length_cons, List.length_nil]
  refine ⟨?_, ?_, ?_, ?_, hlen, ?_, ?_, ?_, ?_, ?_⟩
  · intro tp1 c hmem
    have hmem1 := hperm.mem_iff.mp hmem
    revert hmem1
    cases w1.tracerShutdown <;> cases w1.meterShutdown <;> simp
  · intro mp1 c hmem
    have hmem1 := hperm.mem_iff.mp hmem
    revert hmem1
    cases w1.tracerShutdown <;> cases w1.meterShutdown <;> simp
  · have hg : tracerGoroutine w1 (TracerProvider.sdk ⟨buildTelemetryInfo w⟩ tr)
          (Context.WithTimeout Context.Background time.Second)
        = Event.tracerShutdown (TracerProvider.sdk ⟨buildTelemetryInfo w⟩ tr)
            (Context.WithTimeout Context.Background 1000000000)
          :: w1.tracerShutdown.toList.map (Event.logError "telemetry tracer shutdown") := by
      unfold tracerGoroutine
      cases w1.tracerShutdown <;> rfl
    rw [← hg]
    exact hleft
  · have hg : meterGoroutine w1 (MeterProvider.sdk mt)
          (Context.WithTimeout Context.Background time.Second)
        = Event.meterShutdown (MeterProvider.sdk mt)
            (Context.WithTimeout Context.Background 1000000000)
          :: w1.meterShutdown.toList.map (Event.logError "telemetry meter shutdown") := by
      unfold meterGoroutine
      cases w1.meterShutdown <;> rfl
    rw [← hg]
    exact hright
  · rw [hlen]
    cases w1.tracerShutdown <;> cases w1.meterShutdown <;> simp
  · intro s hs
    simp [Halt.run, tracerGoroutine, meterGoroutine, hs, merge, time.Second]
  · intro s hs
    simp [Halt.run, tracerGoroutine, meterGoroutine, hs, merge, time.Second]
  · intro s hs
    cases ht : w1.tracerShutdown <;>
      simp [Halt.run, tracerGoroutine, meterGoroutine, hs, ht, merge, time.Second]
  · intro s hs
    cases hm : w1.meterShutdown <;>
      simp [Halt.run, tracerGoroutine, meterGoroutine, hs, hm, merge, time.Second]

/-- Witness for C10: `OTEL_EXPORTER=otlp`, the tracer shutdown fails and the
scheduler lets the tracer unit move first, then the meter unit; both
`Shutdown` calls are made with the one-second context before the tracer
unit logs its failure. -/
theorem telemetry_halt_joins_under_deadline_witness :
    (program0.telemetry otlpRaceWorld).halt
        = some (Halt.live Context.Background
            (TracerProvider.sdk ⟨buildTelemetryInfo otlpRaceWorld⟩ SpanExporter.otlptracegrpc)
            (MeterProvider.sdk MetricExporter.otlpmetricgrpc))
      ∧ (Halt.live Context.Background
            (TracerProvider.sdk ⟨buildTelemetryInfo otlpRaceWorld⟩ SpanExporter.otlptracegrpc)
            (MeterProvider.sdk MetricExporter.otlpmetricgrpc)).run otlpRaceWorld
          = [Event.tracerShutdown
               (TracerProvider.sdk ⟨buildTelemetryInfo otlpRaceWorld⟩
                 SpanExporter.otlptracegrpc)
               (Context.WithTimeout Context.Background 1000000000),
             Event.meterShutdown (MeterProvider.sdk MetricExporter.otlpmetricgrpc)
               (Context.WithTimeout Context.Background 1000000000),
             Event.logError "telemetry tracer shutdown"
               (GoError.New "context deadline exceeded")]
      ∧ ∃ tp mp, (program0.telemetry otlpRaceWorld).halt
            = some (Halt.live Context.Background tp mp)
          ∧ ((Halt.live Context.Background tp mp).run otlpRaceWorld).length = 3 := by
  obtain ⟨tp, mp, _, _, hh, hrun⟩ :=
    telemetry_halt_joins_under_deadline program0 otlpRaceWorld (Or.inr rfl) (by decide)
  exact ⟨by decide, by decide, tp, mp, hh, (hrun otlpRaceWorld).2.2.2.2.1⟩

/-- C9 fails as stated: with `OTEL_EXPORTER=stdout` and a failing
`stdouttrace.New`, telemetry initialization fails and `main` exits with status
1, but the halt result is nil and `main` never invokes it. -/
theorem main_init_failure_skips_halt :
    ¬ ((program0.telemetry traceFailWorld).err ≠ none →
        (Event.callHalt ∈ (main traceFailWorld globals0).events
          ∧ (main traceFailWorld globals0).status = ExitStatus.exit 1)) := by
  intro h
  have hne : (program0.telemetry traceFailWorld).err ≠ none := by decide
  have hno : Event.callHalt ∉ (main traceFailWorld globals0).events := by decide
  exact hno (h hne).1

/-- C9 as amended: under the version flag `main` prints the build information
and exits with status 2 without calling `telemetry` (no other event, globals
untouched); when telemetry initialization fails `main` logs the error and
exits with status 1 at once: the halt result is nil, it is never invoked, no
`Shutdown` is called and nothing is registered; and only when initialization
succeeds does `main` invoke the halt closure, once, before returning. -/
theorem main_exit_codes (w : World) (g : Globals) :
    (w.version = true →
        (main w g).status = ExitStatus.exit 2
          ∧ (main w g).events = [Event.println w.buildInfo]
          ∧ (main w g).globals = g)
      ∧ (w.version = false → ∀ err, (program0.telemetry w).err = some err →
          (main w g).status = ExitStatus.exit 1
            ∧ (main w g).events = (program0.telemetry w).events
                ++ [Event.logError "cannot initialize telemetry" err]
            ∧ (program0.telemetry w).halt = none
            ∧ Event.callHalt ∉ (main w g).events
            ∧ (∀ e ∈ (main w g).events, e.isShutdown = false ∧ e.isRegistration = false)
            ∧ (main w g).globals = g)
      ∧ (w.version = false → (program0.telemetry w).err = none →
          (main w g).status = ExitStatus.returned
            ∧ (main w g).events.count Event.callHalt = 1) := by
  refine ⟨?_, ?_, ?_⟩
  · intro hv
    simp [main, hv]
  · intro hv err he
    have hloc := telemetry_events_local program0 w
    have hhalt : (program0.telemetry w).halt = none :=
      (failed_telemetry_keeps_providers program0 w (by rw [he]; simp)).2.2
    rw [main_of_telemetry_error w g err hv he]
    refine ⟨rfl, rfl, hhalt, ?_, ?_, rfl⟩
    · intro hmem
      rcases List.mem_append.mp hmem with hmem | hmem
      · exact (hloc _ hmem).2.2 rfl
      · simp at hmem
    · intro e hmem
      rcases List.mem_append.mp hmem with hmem | hmem
      · exact ⟨(hloc e hmem).2.1, (hloc e hmem).1⟩
      · simp only [List.mem_singleton] at hmem
        subst hmem
        exact ⟨rfl, rfl⟩
  · intro hv he
    obtain ⟨h, hh, hrun⟩ := telemetry_success_halt program0 w he
    have hloc := telemetry_events_local program0 w
    have hcount : (program0.telemetry w).events.count Event.callHalt = 0 :=
      List.count_eq_zero.mpr fun hmem => (hloc _ hmem).2.2 rfl
    have hrun0 : (h.run w).count Event.callHalt = 0 :=
      List.count_eq_zero.mpr fun hmem => absurd rfl (hrun _ hmem)
    simp only [program0] at he hh hcount
    simp [main, hv, he, hh, List.count_append, List.count_cons, hcount, hrun0]

/-- Witness for C9 as amended: the version flag, and a failing
`stdouttrace.New`. -/
theorem main_exit_codes_witness :
    (main { stdoutWorld with version := true } globals0).status = ExitStatus.exit 2
      ∧ (main traceFailWorld globals0).status = ExitStatus.exit 1
      ∧ Event.callHalt ∉ (main traceFailWorld globals0).events
      ∧ (main stdoutWorld globals0).status = ExitStatus.returned := by
  have hv := (main_exit_codes { stdoutWorld with version := true } globals0).1 rfl
  have hf := (main_exit_codes traceFailWorld globals0).2.1 rfl
    (GoError.Errorf "stdouttrace: " (GoError.New "trace boom")) (by decide)
  have hs := (main_exit_codes stdoutWorld globals0).2.2 rfl (by decide)
  exact ⟨hv.1, hf.1, hf.2.2.2.1, hs.1⟩

end Gonuggets
